import Mathlib

/-!
# Pipelines-as-Code: Run Status Ledger & Report Renderer, and the `generate` command

A shallow embedding of the `tkn-pac` CLI pieces covered by the specification:

* the Namespace Resolver and the Report Renderer behind the
  `tkn-pac repository describe` command (the renderer's Go source is not part
  of the source tree here — only its test `describe_test.go` is — so those
  definitions are modelled from the spec, as marked on each definition), and
* the `generate` command (`pkg/cmd/tknpac/generate/generate.go`), translated
  directly from the Go source.

Timestamps are modelled as natural numbers counting seconds; the injected
clock is a single `now : Nat` value.
-/

namespace PacSpec

/-! ## Data model -/

/-- Modelled from the spec: one historical execution record (`RunStatus`).
Optional fields are `Option`s; timestamps are seconds as `Nat`. -/
structure RunStatus where
  pipelineRunName : String
  conditionReason : Option String
  conditionMessage : Option String
  startTime : Option Nat
  completionTime : Option Nat
  commitSHA : Option String
  commitSHAURL : Option String
  commitTitle : Option String
  targetBranch : Option String
  eventType : Option String
deriving DecidableEq, Repr

/-- Modelled from the spec: the addressable `Repository` resource.
(`namespace` is a Lean keyword, hence the field name `nameSpace`.) -/
structure Repository where
  name : String
  nameSpace : String
  sourceURL : String
  runs : List RunStatus
deriving DecidableEq, Repr

/-! ## Namespace Resolver -/

/-- Modelled from the spec: `resolve(contextNamespace, overrideNamespace)`;
the Go resolver lives in `describe.go`, which is absent from the source tree
(the test at `describe_test.go:153-170` exercises it through `describe`).
A non-empty override wins unconditionally, otherwise the context namespace
is used. -/
def resolve (contextNamespace overrideNamespace : String) : String :=
  if overrideNamespace ≠ "" then overrideNamespace else contextNamespace

/-! ## Classification -/

/-- Modelled from the spec: the closed set of display states. -/
inductive DisplayState where
  | succeeded
  | failed
  | running
  | unknown
deriving DecidableEq, Repr

/-- Modelled from the spec: recognized terminal-success condition reasons. -/
def successTokens : List String := ["Success", "Succeeded"]

/-- Modelled from the spec: recognized terminal-failure condition reasons. -/
def failureTokens : List String := ["Failed", "Failure"]

/-- Modelled from the spec: the explicitly in-progress condition reason. -/
def runningTokens : List String := ["Running"]

/-- Modelled from the spec: map a `conditionReason` to a display state.
No condition at all means the run is still in progress; an unrecognized
token degrades to `unknown`. -/
def classify : Option String → DisplayState
  | none => .running
  | some t =>
    if t ∈ successTokens then .succeeded
    else if t ∈ failureTokens then .failed
    else if t ∈ runningTokens then .running
    else .unknown

/-- Modelled from the spec: the fixed one-glyph icon table. -/
def iconOf : DisplayState → String
  | .succeeded => "✅"
  | .failed => "❌"
  | .running => "🏃"
  | .unknown => "❓"

/-! ## Time formatting -/

/-- Render `n` with a unit name, pluralizing the unit when `n ≠ 1`. -/
def pluralUnit (n : Nat) (unit : String) : String :=
  toString n ++ " " ++ unit ++ (if n = 1 then "" else "s")

/-- Modelled from the spec: coarse human duration using the largest
non-zero unit (seconds / minutes / hours / days). -/
def humanDuration (secs : Nat) : String :=
  if secs < 60 then pluralUnit secs "second"
  else if secs < 3600 then pluralUnit (secs / 60) "minute"
  else if secs < 86400 then pluralUnit (secs / 3600) "hour"
  else pluralUnit (secs / 86400) "day"

/-- Placeholder shown when a timestamp needed for a cell is absent. -/
def timePlaceholder : String := "---"

/-- The fixed placeholder for an inconsistent time range. -/
def unknownDuration : String := "Unknown"

/-- Modelled from the spec: the Age column — elapsed time between `now` and
`startTime`; an absent `startTime` renders the fixed placeholder. -/
def ageCell (now : Nat) : Option Nat → String
  | none => timePlaceholder
  | some s => humanDuration (now - s) ++ " ago"

/-- Modelled from the spec: the Duration column — elapsed time between
`startTime` and `completionTime` when both are present; an inconsistent
range (`completionTime < startTime`) degrades to `Unknown`; a missing
endpoint renders the placeholder. -/
def durationCell : Option Nat → Option Nat → String
  | some s, some c => if c < s then unknownDuration else humanDuration (c - s)
  | _, _ => timePlaceholder

/-! ## Display ordering -/

/-- Modelled from the spec: the display order as a Boolean relation —
`startTime` descending, entries without a `startTime` after all entries
with one. -/
def displayLEb (a b : RunStatus) : Bool :=
  match a.startTime, b.startTime with
  | some x, some y => decide (y ≤ x)
  | some _, none => true
  | none, some _ => false
  | none, none => true

/-- The display order as a proposition. -/
def displayLE (a b : RunStatus) : Prop := displayLEb a b = true

instance : DecidableRel displayLE := fun _ _ => inferInstanceAs (Decidable (_ = true))

theorem displayLE_total (a b : RunStatus) : displayLE a b ∨ displayLE b a := by
  unfold displayLE displayLEb
  cases a.startTime <;> cases b.startTime <;> simp
  exact Nat.le_total _ _

theorem displayLE_trans (a b c : RunStatus) :
    displayLE a b → displayLE b c → displayLE a c := by
  unfold displayLE displayLEb
  cases a.startTime <;> cases b.startTime <;> cases c.startTime <;> simp
  exact fun h1 h2 => Nat.le_trans h2 h1

instance : IsTotal RunStatus displayLE := ⟨displayLE_total⟩

instance : IsTrans RunStatus displayLE := ⟨fun a b c => displayLE_trans a b c⟩

/-- Entries with the same `startTime` key are tied in the display order. -/
theorem displayLE_of_startTime_eq {a b : RunStatus}
    (h : a.startTime = b.startTime) : displayLE a b := by
  unfold displayLE displayLEb
  rw [h]
  cases b.startTime <;> simp

/-- Modelled from the spec: the stable most-recent-first sort of the runs. -/
def sortRuns (l : List RunStatus) : List RunStatus :=
  List.insertionSort displayLE l

/-! ## Report layout -/

/-- Shorten a commit SHA to its first seven characters. -/
def shortSHA (s : String) : String := String.mk (s.data.take 7)

/-- Modelled from the spec: the cells of one run-status row — icon, pipeline
run name, shortened SHA, commit title, target branch, event type, age,
duration. -/
def rowCells (now : Nat) (r : RunStatus) : List String :=
  [iconOf (classify r.conditionReason),
   r.pipelineRunName,
   shortSHA (r.commitSHA.getD ""),
   r.commitTitle.getD "",
   r.targetBranch.getD "",
   r.eventType.getD "",
   ageCell now r.startTime,
   durationCell r.startTime r.completionTime]

/-- One run-status row as a single tab-separated line. -/
def renderRow (now : Nat) (r : RunStatus) : String :=
  String.intercalate "\t" (rowCells now r)

/-- Modelled from the spec: the header block — repository name, namespace,
source URL. -/
def headerLines (repo : Repository) : List String :=
  ["Name: " ++ repo.name,
   "Namespace: " ++ repo.nameSpace,
   "URL: " ++ repo.sourceURL]

/-- The explicit indicator emitted instead of an empty table. -/
def noRunsMessage : String := "No runs has started yet"

/-- The runs in display order. -/
def displayRuns (repo : Repository) : List RunStatus := sortRuns repo.runs

/-- Modelled from the spec: `render(repo, now)` as the list of output lines —
the header block followed either by the single no-runs indicator or by one
row per run-status entry, most recent first. -/
def render (now : Nat) (repo : Repository) : List String :=
  headerLines repo ++
    (if repo.runs.isEmpty then [noRunsMessage]
     else (displayRuns repo).map (renderRow now))

/-- The final report text: the output lines joined by newlines. -/
def renderText (now : Nat) (repo : Repository) : String :=
  String.intercalate "\n" (render now repo)

/-! ## Stability of the display sort -/

/-- Inserting an element keeps the filtered view of a predicate that only
selects elements tied with it: the element lands before every selected
element already present. -/
theorem filter_orderedInsert (p : RunStatus → Bool) (a : RunStatus)
    (hp : ∀ b, p a = true → p b = true → displayLE a b)
    (l : List RunStatus) :
    (List.orderedInsert displayLE a l).filter p = ((a :: l).filter p) := by
  induction l with
  | nil => simp [List.orderedInsert]
  | cons b l ih =>
    rw [List.orderedInsert]
    split_ifs with h
    · rfl
    · by_cases hpa : p a = true
      · have hpb : ¬p b = true := fun hpb => h (hp b hpa hpb)
        simp [List.filter_cons, hpa, hpb, ih]
      · by_cases hpb : p b = true <;> simp [List.filter_cons, hpa, hpb, ih]

/-- Stability of the display sort: filtering by any predicate that only
keeps mutually tied entries (in particular, entries sharing one `startTime`
key) yields the same sequence before and after sorting. -/
theorem filter_sortRuns (p : RunStatus → Bool)
    (hp : ∀ a b, p a = true → p b = true → displayLE a b)
    (l : List RunStatus) : (sortRuns l).filter p = l.filter p := by
  induction l with
  | nil => rfl
  | cons a l ih =>
    simp only [sortRuns] at ih ⊢
    rw [List.insertionSort, filter_orderedInsert p a (fun b => hp a b),
      List.filter_cons, List.filter_cons, ih]

/-- The display sort emits the runs in display order. -/
theorem sorted_sortRuns (l : List RunStatus) :
    List.Pairwise displayLE (sortRuns l) :=
  List.sorted_insertionSort displayLE l

/-- The display sort loses no entry. -/
theorem length_sortRuns (l : List RunStatus) :
    (sortRuns l).length = l.length :=
  List.length_insertionSort displayLE l

/-! ## The `generate` command (`pkg/cmd/tknpac/generate/generate.go`)

The interactive prompts are modelled by the answers they produce (the
prompt-failure paths, which merely propagate the survey error, are outside
the claims); the file system is an explicit snapshot threaded through
`samplePipeline`. -/

namespace Generate

/-- The `eventTypes` map of `generate.go`, as an association list from event
type key to prompt label. The Go code iterates the map to collect labels and
to look a chosen label up; the labels are distinct, so the lookup result does
not depend on iteration order. -/
def eventTypes : List (String × String) :=
  [("pull_request", "Pull Request"), ("push", "Push to a Branch or a Tag")]

/-- The `defaultEventType` of `generate.go`. -/
def defaultEventType : String := "Pull Request"

/-- The `mainBranch` of `generate.go`. -/
def mainBranch : String := "main"

/-- The `choice` of `targetEvent` after the empty-answer fallback:
`if *choice == "" { choice = &defaultEventType }`. -/
def chooseLabel (answer : String) : String :=
  if answer = "" then defaultEventType else answer

/-- The `targetEvent` step of `generate.go`, the prompt modelled by the answer string
it yields. An empty answer is replaced by `defaultEventType`; the chosen
label is looked up among `eventTypes` values, whose key becomes the event's
`EventType` (returned here), and an unmatched label is the error case. -/
def targetEvent (answer : String) : Except String String :=
  match eventTypes.find? (fun kv => kv.2 == chooseLabel answer) with
  | some kv => Except.ok kv.1
  | none => Except.error ("invalid event type: " ++ chooseLabel answer)

/-- A minimal file-system snapshot: existing directories, and files with
their contents. -/
structure FS where
  dirs : List String
  files : List (String × String)
deriving DecidableEq, Repr

/-- The `os.Stat` existence check on a file path. -/
def statFile (fs : FS) (p : String) : Bool := (fs.files.lookup p).isSome

/-- The `os.Stat` existence check on a directory path. -/
def statDir (fs : FS) (p : String) : Bool := fs.dirs.contains p

/-- The `ioutil.WriteFile` call: create or overwrite one file. -/
def writeFile (fs : FS) (p content : String) : FS :=
  { fs with files := (p, content) :: fs.files.filter (fun kv => kv.1 != p) }

/-- The `fname` of `samplePipeline`:
`strings.ReplaceAll(eventType, "_", "-") + ".yaml"` (the single-character
pattern replacement, taken character-wise). -/
def eventFileName (eventType : String) : String :=
  String.mk (eventType.data.map (fun c => if c = '_' then '-' else c)) ++ ".yaml"

/-- The directory `filepath.Join(gitInfo.TopLevelPath, ".tekton")`. -/
def tektonDir (top : String) : String := top ++ "/.tekton"

/-- The `fpath` of `samplePipeline`:
`filepath.Join(gitInfo.TopLevelPath, ".tekton", fname)`. -/
def pipelineFilePath (top eventType : String) : String :=
  tektonDir top ++ "/" ++ eventFileName eventType

/-- The tail of `samplePipeline` after the existence check: materialize the
template (`genTmpl`, modelled by its outcome) and write it to `fpath`,
reporting the success message. -/
def writeSampleTail (fpath : String) (tmpl : Except String String)
    (fs : FS) (out : List String) : Except String (FS × List String) :=
  match tmpl with
  | Except.error e => Except.error e
  | Except.ok t =>
      Except.ok (writeFile fs fpath t,
        out ++ ["A basic template has been created in " ++ fpath])

/-- The `samplePipeline` step of `generate.go`: the two `survey.Confirm` prompts are
modelled by their answers (`createAnswer` for the creation prompt,
`overrideAnswer` for the override prompt), `genTmpl` by its outcome `tmpl`.
Mirrors the source faithfully, including that the override prompt's answer
is stored back into `reply` (modelled as the unused `_reply`) while the
`overwrite` flag that the code consults is declared and never set. -/
def samplePipeline (top eventType : String) (tmpl : Except String String)
    (createAnswer overrideAnswer : Bool) (fs : FS) :
    Except String (FS × List String) :=
  let fpath := pipelineFilePath top eventType
  let reply := createAnswer
  if !reply then Except.ok (fs, [])
  else
    let st :=
      if !(statDir fs (tektonDir top)) then
        ({ fs with dirs := tektonDir top :: fs.dirs },
         ["Directory .tekton has been created."])
      else (fs, [])
    if statFile st.1 fpath then
      let overwrite := false
      let _reply := overrideAnswer
      if !overwrite then Except.ok (st.1, st.2)
      else writeSampleTail fpath tmpl st.1 st.2
    else writeSampleTail fpath tmpl st.1 st.2

end Generate

/-! ## Supporting lemmas for the claims -/

/-- The no-runs indicator is never one of the header lines, whatever the
repository's name, namespace and URL. -/
theorem noRunsMessage_not_mem_headerLines (repo : Repository) :
    noRunsMessage ∉ headerLines repo := by
  intro hmem
  simp only [headerLines, List.mem_cons, List.mem_singleton,
    List.not_mem_nil, or_false] at hmem
  rcases hmem with h | h | h <;>
  · have h2 := congrArg String.data h
    rw [String.data_append] at h2
    simp [noRunsMessage] at h2

/-- Concrete fixtures used by the witnesses below. -/
def emptyRepo : Repository :=
  { name := "test-run", nameSpace := "namespace",
    sourceURL := "https://anurl.com", runs := [] }

def malformedRun : RunStatus :=
  { pipelineRunName := "pipelinerun1", conditionReason := some "Success",
    conditionMessage := none, startTime := some 10, completionTime := some 5,
    commitSHA := none, commitSHAURL := none, commitTitle := none,
    targetBranch := none, eventType := none }

def malformedRepo : Repository :=
  { name := "test-run", nameSpace := "namespace",
    sourceURL := "https://anurl.com", runs := [malformedRun] }

def idleRun : RunStatus :=
  { pipelineRunName := "pipelinerun2", conditionReason := none,
    conditionMessage := none, startTime := none, completionTime := none,
    commitSHA := none, commitSHAURL := none, commitTitle := none,
    targetBranch := none, eventType := none }

def idleRepo : Repository :=
  { name := "test-run", nameSpace := "namespace",
    sourceURL := "https://anurl.com", runs := [idleRun] }

/-! ## Claims -/

/-- C6: `resolve(ctxNS, override)` returns `override` whenever `override`
is non-empty, regardless of `ctxNS`, and returns `ctxNS` otherwise. -/
theorem resolve_override_precedence (ctxNS override : String) :
    (override ≠ "" → resolve ctxNS override = override)
    ∧ (override = "" → resolve ctxNS override = ctxNS) := by
  unfold resolve
  constructor <;> intro h <;> simp [h]

/-- Witness for C6 at the namespaces of end-to-end scenario B. -/
theorem resolve_override_precedence_witness :
    resolve "namespace" "optnamespace" = "optnamespace"
    ∧ resolve "namespace" "" = "namespace" :=
  ⟨(resolve_override_precedence "namespace" "optnamespace").1 (by decide),
   (resolve_override_precedence "namespace" "").2 rfl⟩

/-- C5: `render` is deterministic — the Repository and the frozen clock are
its only inputs, so two invocations with the same inputs produce identical
output lines and identical report text. -/
theorem render_deterministic (now : Nat) (repo : Repository) :
    render now repo = render now repo
    ∧ renderText now repo = renderText now repo :=
  ⟨rfl, rfl⟩

/-- C4: for a Repository with zero run-status entries, the render output is
the header followed by exactly one explicit no-runs indicator line, and
there are no per-run rows. -/
theorem render_empty_runs (now : Nat) (repo : Repository)
    (h : repo.runs = []) :
    render now repo = headerLines repo ++ [noRunsMessage]
    ∧ (render now repo).count noRunsMessage = 1
    ∧ (displayRuns repo).map (renderRow now) = [] := by
  have hrender : render now repo = headerLines repo ++ [noRunsMessage] := by
    simp [render, h]
  refine ⟨hrender, ?_, ?_⟩
  · rw [hrender, List.count_append]
    have h0 : (headerLines repo).count noRunsMessage = 0 :=
      List.count_eq_zero.mpr (noRunsMessage_not_mem_headerLines repo)
    simp [h0]
  · simp [displayRuns, sortRuns, h, List.insertionSort]

/-- Witness for C4 on a repository with an empty run list. -/
theorem render_empty_runs_witness :
    render 0 emptyRepo = headerLines emptyRepo ++ [noRunsMessage]
    ∧ (render 0 emptyRepo).count noRunsMessage = 1
    ∧ (displayRuns emptyRepo).map (renderRow 0) = [] :=
  render_empty_runs 0 emptyRepo rfl

/-- C3: an entry whose completion time is earlier than its start time
renders the fixed `Unknown` Duration — a fixed placeholder, never a
negative value — and the report still carries one row for every entry of
the repository, so rendering is not aborted. -/
theorem malformed_duration_unknown (now : Nat) (repo : Repository)
    (r : RunStatus) (s c : Nat) (hmem : r ∈ repo.runs)
    (hs : r.startTime = some s) (hc : r.completionTime = some c)
    (hlt : c < s) :
    durationCell r.startTime r.completionTime = unknownDuration
    ∧ (render now repo).length
        = (headerLines repo).length + repo.runs.length := by
  constructor
  · rw [hs, hc]
    simp [durationCell, hlt]
  · have hne : repo.runs.isEmpty = false := by
      cases hruns : repo.runs with
      | nil => rw [hruns] at hmem; cases hmem
      | cons a l => rfl
    simp [render, hne, displayRuns, length_sortRuns]

/-- Witness for C3 on a run that completes five seconds before it starts. -/
theorem malformed_duration_unknown_witness :
    durationCell malformedRun.startTime malformedRun.completionTime
        = unknownDuration
    ∧ (render 0 malformedRepo).length
        = (headerLines malformedRepo).length + malformedRepo.runs.length :=
  malformed_duration_unknown 0 malformedRepo malformedRun 10 5
    (by decide) rfl rfl (by decide)

/-- C8: `render` is total — an absent `startTime` renders the fixed
placeholder Age, an absent `completionTime` the placeholder Duration, and
the output is always a complete report: the header block plus either the
no-runs indicator or one row per entry. -/
theorem render_total (now : Nat) (repo : Repository) (r : RunStatus) :
    (r.startTime = none → ageCell now r.startTime = timePlaceholder)
    ∧ (r.completionTime = none →
        durationCell r.startTime r.completionTime = timePlaceholder)
    ∧ (render now repo).length
        = (headerLines repo).length
          + (if repo.runs.isEmpty then 1 else repo.runs.length) := by
  refine ⟨?_, ?_, ?_⟩
  · intro h
    rw [h]
    rfl
  · intro h
    rw [h]
    cases r.startTime <;> rfl
  · cases hruns : repo.runs.isEmpty <;>
      simp [render, hruns, displayRuns, length_sortRuns]

/-- Witness for C8 on a run that has neither started nor completed. -/
theorem render_total_witness :
    ageCell 0 idleRun.startTime = timePlaceholder
    ∧ durationCell idleRun.startTime idleRun.completionTime = timePlaceholder
    ∧ (render 0 idleRepo).length
        = (headerLines idleRepo).length
          + (if idleRepo.runs.isEmpty then 1 else idleRepo.runs.length) :=
  ⟨(render_total 0 idleRepo idleRun).1 rfl,
   (render_total 0 idleRepo idleRun).2.1 rfl,
   (render_total 0 idleRepo idleRun).2.2⟩

/-- C2: `classify` maps every `conditionReason` to exactly one state of the
closed display set: recognized success tokens to `succeeded`, recognized
failure tokens to `failed`, no condition or the in-progress token to
`running`, and every other token to `unknown`. -/
theorem classify_closed (reason : Option String) :
    (∀ t, reason = some t → t ∈ successTokens →
      classify reason = DisplayState.succeeded)
    ∧ (∀ t, reason = some t → t ∈ failureTokens →
        classify reason = DisplayState.failed)
    ∧ (reason = none → classify reason = DisplayState.running)
    ∧ (∀ t, reason = some t → t ∈ runningTokens →
        classify reason = DisplayState.running)
    ∧ (∀ t, reason = some t → t ∉ successTokens → t ∉ failureTokens →
        t ∉ runningTokens → classify reason = DisplayState.unknown) := by
  refine ⟨?_, ?_, ?_, ?_, ?_⟩
  · rintro t rfl ht
    simp only [successTokens, List.mem_cons, List.mem_singleton,
      List.not_mem_nil, or_false] at ht
    rcases ht with rfl | rfl <;> decide
  · rintro t rfl ht
    simp only [failureTokens, List.mem_cons, List.mem_singleton,
      List.not_mem_nil, or_false] at ht
    rcases ht with rfl | rfl <;> decide
  · rintro rfl
    rfl
  · rintro t rfl ht
    simp only [runningTokens, List.mem_singleton] at ht
    subst ht
    decide
  · rintro t rfl h1 h2 h3
    simp [classify, h1, h2, h3]

/-- Witness for C2 on one representative of each class of tokens. -/
theorem classify_closed_witness :
    classify (some "Success") = DisplayState.succeeded
    ∧ classify (some "Failed") = DisplayState.failed
    ∧ classify none = DisplayState.running
    ∧ classify (some "Running") = DisplayState.running
    ∧ classify (some "PipelineRunTimeout") = DisplayState.unknown :=
  ⟨(classify_closed (some "Success")).1 "Success" rfl (by decide),
   (classify_closed (some "Failed")).2.1 "Failed" rfl (by decide),
   (classify_closed none).2.2.1 rfl,
   (classify_closed (some "Running")).2.2.2.1 "Running" rfl (by decide),
   (classify_closed (some "PipelineRunTimeout")).2.2.2.2 "PipelineRunTimeout"
     rfl (by decide) (by decide) (by decide)⟩

/-- End-to-end scenario A fixtures: the clock reads 2000 s; the single run
started 16 minutes (960 s) and completed 15 minutes (900 s) before that. -/
def scenarioNow : Nat := 2000

def scenarioRun : RunStatus :=
  { pipelineRunName := "pipelinerun1", conditionReason := some "Success",
    conditionMessage := none, startTime := some 1040,
    completionTime := some 1100, commitSHA := some "SHA",
    commitSHAURL := some "https://anurl.com/commit/SHA",
    commitTitle := some "A title", targetBranch := some "TargetBranch",
    eventType := none }

def scenarioRepo : Repository :=
  { name := "test-run", nameSpace := "namespace",
    sourceURL := "https://anurl.com", runs := [scenarioRun] }

/-- C7: end-to-end scenario A — the repository "test-run" in namespace
"namespace" with one successful run started 16 minutes ago and completed
a minute later renders exactly one row, carrying the Succeeded icon, age
"16 minutes ago" and duration "1 minute". -/
theorem scenario_single_run :
    (displayRuns scenarioRepo).map (rowCells scenarioNow)
      = [[iconOf DisplayState.succeeded, "pipelinerun1", "SHA", "A title",
          "TargetBranch", "", "16 minutes ago", "1 minute"]]
    ∧ render scenarioNow scenarioRepo
      = headerLines scenarioRepo ++ [renderRow scenarioNow scenarioRun] := by
  constructor <;> rfl

/-- Fixture for the C1 witness: two finished runs stored oldest-first, so
the display order must swap them, plus two runs without a start time. -/
def stableRepo : Repository :=
  { name := "test-run", nameSpace := "namespace",
    sourceURL := "https://anurl.com",
    runs := [ { malformedRun with
                pipelineRunName := "pipelinerun2",
                startTime := some 920,
                completionTime := some 980 },
              { malformedRun with
                pipelineRunName := "pipelinerun1",
                startTime := some 1040,
                completionTime := some 1100 },
              { idleRun with pipelineRunName := "pending1" },
              { idleRun with pipelineRunName := "pending2" } ] }

/-- C1: for a Repository with a non-empty run list, `render` emits the
header plus exactly the display-sorted rows; the display order is
non-increasing by `startTime` with absent start times after all present
ones (`displayLE` pairwise), and the sort is stable: for every `startTime`
key, the entries carrying that key appear in their original relative
order. -/
theorem render_rows_sorted_stable (now : Nat) (repo : Repository)
    (k : Option Nat) (h : repo.runs ≠ []) :
    render now repo
      = headerLines repo ++ (displayRuns repo).map (renderRow now)
    ∧ List.Pairwise displayLE (displayRuns repo)
    ∧ (displayRuns repo).filter (fun r => r.startTime == k)
        = repo.runs.filter (fun r => r.startTime == k) := by
  refine ⟨?_, ?_, ?_⟩
  · have hne : repo.runs.isEmpty = false := by
      cases hruns : repo.runs with
      | nil => exact absurd hruns h
      | cons a l => rfl
    simp [render, hne]
  · simpa [displayRuns] using sorted_sortRuns repo.runs
  · refine filter_sortRuns _ (fun a b ha hb => ?_) repo.runs
    have ha2 : a.startTime = k := by simpa using ha
    have hb2 : b.startTime = k := by simpa using hb
    exact displayLE_of_startTime_eq (ha2.trans hb2.symm)

/-- Witness for C1 on `stableRepo`, with the key shared by its two
not-yet-started entries. -/
theorem render_rows_sorted_stable_witness :
    render 2000 stableRepo
      = headerLines stableRepo ++ (displayRuns stableRepo).map (renderRow 2000)
    ∧ List.Pairwise displayLE (displayRuns stableRepo)
    ∧ (displayRuns stableRepo).filter (fun r => r.startTime == none)
        = stableRepo.runs.filter (fun r => r.startTime == none) :=
  render_rows_sorted_stable 2000 stableRepo none (by decide)

/-- C9: whenever the target pipeline file already exists, `samplePipeline`
succeeds without writing the file, for every answer given to the override
confirmation prompt, and the file table is unchanged (in the source the
prompt's answer lands in a variable that is never consulted while the
consulted `overwrite` flag is never set). -/
theorem samplePipeline_never_overrides (top eventType : String)
    (tmpl : Except String String) (createAnswer overrideAnswer : Bool)
    (fs : Generate.FS)
    (h : Generate.statFile fs (Generate.pipelineFilePath top eventType)
          = true) :
    ∃ fs2 out,
      Generate.samplePipeline top eventType tmpl createAnswer overrideAnswer fs
          = Except.ok (fs2, out)
        ∧ fs2.files = fs.files := by
  cases createAnswer with
  | false => exact ⟨fs, [], rfl, rfl⟩
  | true =>
    cases hd : Generate.statDir fs (Generate.tektonDir top) with
    | true =>
      refine ⟨fs, [], ?_, rfl⟩
      simp [Generate.samplePipeline, hd, h]
    | false =>
      refine ⟨{ fs with dirs := Generate.tektonDir top :: fs.dirs },
        ["Directory .tekton has been created."], ?_, rfl⟩
      simp only [Generate.statFile] at h
      simp [Generate.samplePipeline, Generate.statFile, hd, h]

/-- Fixture for the C9 witness: the `.tekton` directory and the target
pull-request pipeline file both already exist. -/
def existingFS : Generate.FS :=
  { dirs := ["top/.tekton"],
    files := [("top/.tekton/pull-request.yaml", "keep me")] }

/-- Witness for C9: both prompts answered yes, yet the call succeeds with
the file table untouched. -/
theorem samplePipeline_never_overrides_witness :
    ∃ fs2 out,
      Generate.samplePipeline "top" "pull_request" (Except.ok "new template")
          true true existingFS
          = Except.ok (fs2, out)
        ∧ fs2.files = existingFS.files :=
  samplePipeline_never_overrides "top" "pull_request"
    (Except.ok "new template") true true existingFS (by decide)

/-- The full case analysis of `targetEvent` on the prompt's answer. -/
theorem targetEvent_eq (answer : String) :
    Generate.targetEvent answer =
      if answer = "" ∨ answer = "Pull Request" then Except.ok "pull_request"
      else if answer = "Push to a Branch or a Tag" then Except.ok "push"
      else Except.error ("invalid event type: " ++ answer) := by
  by_cases h1 : answer = ""
  · subst h1
    rfl
  · by_cases h2 : answer = "Pull Request"
    · subst h2
      rfl
    · by_cases h3 : answer = "Push to a Branch or a Tag"
      · subst h3
        rfl
      · have hc : Generate.chooseLabel answer = answer := if_neg h1
        rw [if_neg (by simp [h1, h2]), if_neg h3]
        unfold Generate.targetEvent
        rw [hc]
        have hf : Generate.eventTypes.find? (fun kv => kv.2 == answer)
            = none := by
          rw [List.find?_eq_none]
          intro x hx
          simp only [Generate.eventTypes, List.mem_cons, List.mem_singleton,
            List.not_mem_nil, or_false] at hx
          rcases hx with rfl | rfl <;> simp [Ne.symm h2, Ne.symm h3]
        rw [hf]

/-- C10: `targetEvent` errors exactly when the prompt yields a non-empty
label outside the fixed two-entry table; an empty answer falls back to the
default "Pull Request"; and every successful run assigns an `EventType`
that is either "pull_request" or "push". -/
theorem targetEvent_spec (answer : String) :
    ((∃ e, Generate.targetEvent answer = Except.error e)
      ↔ answer ≠ "" ∧ answer ≠ "Pull Request"
          ∧ answer ≠ "Push to a Branch or a Tag")
    ∧ (answer = "" → Generate.targetEvent answer = Except.ok "pull_request")
    ∧ (∀ k, Generate.targetEvent answer = Except.ok k →
        k = "pull_request" ∨ k = "push") := by
  have he := targetEvent_eq answer
  refine ⟨?_, ?_, ?_⟩
  · rw [he]
    by_cases h1 : answer = ""
    · simp [h1]
    · by_cases h2 : answer = "Pull Request"
      · simp [h2]
      · by_cases h3 : answer = "Push to a Branch or a Tag" <;>
          simp [h1, h2, h3]
  · intro h
    rw [he, if_pos (Or.inl h)]
  · intro k hk
    rw [he] at hk
    split_ifs at hk with hA hB
    · exact Or.inl (Except.ok.inj hk).symm
    · exact Or.inr (Except.ok.inj hk).symm

/-- Witness for C10: the empty answer, an off-table answer and the push
label, each driven through `targetEvent`. -/
theorem targetEvent_spec_witness :
    Generate.targetEvent "" = Except.ok "pull_request"
    ∧ (∃ e, Generate.targetEvent "Release" = Except.error e)
    ∧ ("push" = "pull_request" ∨ "push" = "push") :=
  ⟨(targetEvent_spec "").2.1 rfl,
   (targetEvent_spec "Release").1.mpr ⟨by decide, by decide, by decide⟩,
   (targetEvent_spec "Push to a Branch or a Tag").2.2 "push" rfl⟩

end PacSpec
